import Mathlib

/-!
Shallow embedding of the Arduino-Auto-Painter firmware (`src/main.cpp`).

Modelling conventions:
* Machine floats (`float` command values) are embedded as exact rationals
  (`Rat`, written with `Rat.divInt` so that the kernel can evaluate them);
  the implicit `float → long` conversion at each `AccelStepper::move` call
  site is the truncation-toward-zero `truncScale` / `rotSteps`.
* An `AccelStepper` is abstracted to its current and target positions (in
  steps); `isRunning` is `target ≠ pos`.  Speed/acceleration configuration
  (`setMaxSpeed`/`setAcceleration`) only affects motion timing, which is
  abstracted: each control tick the environment reports, per axis, whether
  the outstanding motion completed during `run()` (the `…Reach` flags of
  `TickInput`).  `stop()` requests a decelerating stop; it is modelled as
  collapsing the target onto the current position and is additionally
  recorded in the tick's effect list.
* Digital pin levels are `Bool`s, `true = HIGH`, `false = LOW`.  The paint
  relay is active-low: `LOW` (= `false`) asserts the spray.
* The debounced home sensors (`Bounce::read` after `update`) are inputs of
  each tick; they are active-low (`false` = triggered).
* The serial line (`Serial.readStringUntil('\n')` followed by `trim`) is
  modelled as an optional, already-trimmed `List Char`; at most one line is
  consumed per tick, as in the source.
* Diagnostic `Serial.print` output is not modelled.
-/

/-- States of the top-level state machine (`enum SystemState`). -/
inductive SystemState where
  | IDLE
  | HOMING_X
  | HOMING_Y
  | HOMED_WAITING
  | EXECUTING_PATTERN
  | ERROR
  | CYCLE_COMPLETE
deriving DecidableEq, Repr

/-- One motion/spray command (`class Command`): a tag character
(`'X'`/`'Y'`/`'R'`/`'S'`), a value (inches or degrees) and a spray flag. -/
structure Command where
  type : Char
  value : Rat
  sprayOn : Bool
deriving DecidableEq, Repr

/-- Macro `MOVE_X(dist, spray)`. -/
def MOVE_X (dist : Rat) (spray : Bool) : Command := ⟨'X', dist, spray⟩

/-- Macro `MOVE_Y(dist, spray)`. -/
def MOVE_Y (dist : Rat) (spray : Bool) : Command := ⟨'Y', dist, spray⟩

/-- Macro `ROTATE(deg)`. -/
def ROTATE (deg : Rat) : Command := ⟨'R', deg, false⟩

/-- Macro `SPRAY_ON()`. -/
def SPRAY_ON : Command := ⟨'S', 0, true⟩

/-- Macro `SPRAY_OFF()`. -/
def SPRAY_OFF : Command := ⟨'S', 0, false⟩

/-- Calibration constant `X_STEPS_PER_INCH` (127). -/
def X_STEPS_PER_INCH : Int := 127

/-- Calibration constant `Y_STEPS_PER_INCH` (169). -/
def Y_STEPS_PER_INCH : Int := 169

/-- The step count `cmd.value * stepsPerUnit` of a linear move, truncated
toward zero as the implicit C++ `float → long` conversion does at the
`AccelStepper::move(long)` call sites.  The product is computed exactly on
the rational's numerator and denominator: `trunc (v * k) = (v.num * k)
tdiv v.den` (the denominator is positive and `Int.tdiv` truncates toward
zero). -/
def truncScale (v : Rat) (k : Int) : Int := Int.tdiv (v.num * k) (v.den : Int)

/-- The step count `(cmd.value * 5000) / 360` of a rotation, truncated
toward zero as the `float → long` conversion does; computed exactly as
`(v.num * 5000) tdiv (v.den * 360)`. -/
def rotSteps (v : Rat) : Int := Int.tdiv (v.num * 5000) ((v.den : Int) * 360)

/-- Abstracted `AccelStepper`: current position and target position, in
steps.  Speed state is abstracted away (see module docstring). -/
structure Stepper where
  pos : Int
  target : Int
deriving DecidableEq, Repr

/-- `AccelStepper::move(d)`: set a target relative to the current position. -/
def Stepper.move (s : Stepper) (d : Int) : Stepper := { s with target := s.pos + d }

/-- `AccelStepper::moveTo(t)`: set an absolute target. -/
def Stepper.moveTo (s : Stepper) (t : Int) : Stepper := { s with target := t }

/-- `AccelStepper::setCurrentPosition(p)`: redefine the current position;
the library also sets the target to it and zeroes the speed. -/
def Stepper.setCurrentPosition (s : Stepper) (p : Int) : Stepper :=
  { s with pos := p, target := p }

/-- `AccelStepper::stop()`: request a decelerating stop (abstracted to
collapsing the target onto the current position). -/
def Stepper.stopNow (s : Stepper) : Stepper := { s with target := s.pos }

/-- `AccelStepper::isRunning()`: outstanding motion remains. -/
def Stepper.isRunning (s : Stepper) : Bool := s.target != s.pos

/-- One `run()` call over the tick: the environment reports whether the
axis finished its outstanding motion during this tick. -/
def Stepper.runTick (s : Stepper) (reach : Bool) : Stepper :=
  if reach then { s with pos := s.target } else s

/-- The mutable global state of the sketch. -/
structure MachState where
  systemState : SystemState
  currentSide : Nat
  currentCommand : Nat
  sidesToPaint : Fin 4 → Bool
  /-- Level of `PAINT_RELAY_PIN`: `true = HIGH` (spray off, deasserted),
  `false = LOW` (spray on, asserted). -/
  paintRelay : Bool
  stepperX : Stepper
  stepperY : Stepper
  stepperRotation : Stepper

/-- Observable side effects of one control tick, used to state the claims:
stop requests issued to each axis and pattern-table command executions
(side index, command index). -/
inductive Effect where
  | stopX
  | stopY
  | stopR
  | exec (side : Nat) (cmdIdx : Nat)
deriving DecidableEq, Repr

/-- `SIDE1_PATTERN` (33 commands). -/
def SIDE1_PATTERN : List Command := [
  MOVE_X (Rat.divInt 45 10) false,
  SPRAY_ON, MOVE_X 26 true, SPRAY_OFF, MOVE_Y (Rat.divInt 416 100) false,
  SPRAY_ON, MOVE_X (-26) true, SPRAY_OFF, MOVE_Y (Rat.divInt 416 100) false,
  SPRAY_ON, MOVE_X 26 true, SPRAY_OFF, MOVE_Y (Rat.divInt 416 100) false,
  SPRAY_ON, MOVE_X (-26) true, SPRAY_OFF, MOVE_Y (Rat.divInt 416 100) false,
  SPRAY_ON, MOVE_X 26 true, SPRAY_OFF, MOVE_Y (Rat.divInt 416 100) false,
  SPRAY_ON, MOVE_X (-26) true, SPRAY_OFF, MOVE_Y (Rat.divInt 416 100) false,
  SPRAY_ON, MOVE_X 26 true, SPRAY_OFF, MOVE_Y (Rat.divInt 416 100) false,
  SPRAY_ON, MOVE_X (-26) true, SPRAY_OFF,
  ROTATE 180]

/-- `SIDE2_PATTERN` (33 commands). -/
def SIDE2_PATTERN : List Command := [
  SPRAY_ON, MOVE_X 26 true, SPRAY_OFF, MOVE_Y (Rat.divInt (-416) 100) false,
  SPRAY_ON, MOVE_X (-26) true, SPRAY_OFF, MOVE_Y (Rat.divInt (-416) 100) false,
  SPRAY_ON, MOVE_X 26 true, SPRAY_OFF, MOVE_Y (Rat.divInt (-416) 100) false,
  SPRAY_ON, MOVE_X (-26) true, SPRAY_OFF, MOVE_Y (Rat.divInt (-416) 100) false,
  SPRAY_ON, MOVE_X 26 true, SPRAY_OFF, MOVE_Y (Rat.divInt (-416) 100) false,
  SPRAY_ON, MOVE_X (-26) true, SPRAY_OFF, MOVE_Y (Rat.divInt (-416) 100) false,
  SPRAY_ON, MOVE_X 26 true, SPRAY_OFF, MOVE_Y (Rat.divInt (-416) 100) false,
  SPRAY_ON, MOVE_X (-26) true, SPRAY_OFF,
  MOVE_X (Rat.divInt (-45) 10) false,
  ROTATE 90]

/-- `SIDE3_PATTERN` (25 commands). -/
def SIDE3_PATTERN : List Command := [
  MOVE_Y (Rat.divInt 45 10) false,
  SPRAY_ON, MOVE_X 35 true, SPRAY_OFF, MOVE_Y (Rat.divInt 4415 1000) false,
  SPRAY_ON, MOVE_X (-35) true, SPRAY_OFF, MOVE_Y (Rat.divInt 4415 1000) false,
  SPRAY_ON, MOVE_X 35 true, SPRAY_OFF, MOVE_Y (Rat.divInt 4415 1000) false,
  SPRAY_ON, MOVE_X (-35) true, SPRAY_OFF, MOVE_Y (Rat.divInt 4415 1000) false,
  SPRAY_ON, MOVE_X 35 true, SPRAY_OFF, MOVE_Y (Rat.divInt 4415 1000) false,
  SPRAY_ON, MOVE_X (-35) true, SPRAY_OFF,
  ROTATE 180]

/-- `SIDE4_PATTERN` (24 commands). -/
def SIDE4_PATTERN : List Command := [
  SPRAY_ON, MOVE_X 35 true, SPRAY_OFF, MOVE_Y (Rat.divInt (-4415) 1000) false,
  SPRAY_ON, MOVE_X (-35) true, SPRAY_OFF, MOVE_Y (Rat.divInt (-4415) 1000) false,
  SPRAY_ON, MOVE_X 35 true, SPRAY_OFF, MOVE_Y (Rat.divInt (-4415) 1000) false,
  SPRAY_ON, MOVE_X (-35) true, SPRAY_OFF, MOVE_Y (Rat.divInt (-4415) 1000) false,
  SPRAY_ON, MOVE_X 35 true, SPRAY_OFF, MOVE_Y (Rat.divInt (-4415) 1000) false,
  SPRAY_ON, MOVE_X (-35) true, SPRAY_OFF,
  MOVE_Y (Rat.divInt (-45) 10) false]

/-- `SIDE1_SIZE = sizeof(SIDE1_PATTERN) / sizeof(Command)`. -/
def SIDE1_SIZE : Nat := SIDE1_PATTERN.length

/-- `SIDE2_SIZE`. -/
def SIDE2_SIZE : Nat := SIDE2_PATTERN.length

/-- `SIDE3_SIZE`. -/
def SIDE3_SIZE : Nat := SIDE3_PATTERN.length

/-- `SIDE4_SIZE`. -/
def SIDE4_SIZE : Nat := SIDE4_PATTERN.length

/-- The `switch(currentSide)` table of `processPattern`, selecting the
pattern for sides 0–3.  For `side ≥ 4` the source never reads the table
(guarded by `currentSide >= 4` above the switch); `[]` stands for that
unreachable branch. -/
def sidePattern : Nat → List Command
  | 0 => SIDE1_PATTERN
  | 1 => SIDE2_PATTERN
  | 2 => SIDE3_PATTERN
  | 3 => SIDE4_PATTERN
  | _ => []

/-- `executeCommand(const Command&)`: translate one command into relay and
stepper effects (`switch(cmd.type)`). -/
def executeCommand (cmd : Command) (st : MachState) : MachState :=
  if cmd.type = 'X' then
    let st1 := if cmd.sprayOn then { st with paintRelay := false } else st
    { st1 with stepperX := st1.stepperX.move (truncScale cmd.value X_STEPS_PER_INCH) }
  else if cmd.type = 'Y' then
    let st1 := if cmd.sprayOn then { st with paintRelay := false } else st
    { st1 with stepperY := st1.stepperY.move (truncScale cmd.value Y_STEPS_PER_INCH) }
  else if cmd.type = 'R' then
    { st with stepperRotation := st.stepperRotation.move (rotSteps cmd.value) }
  else if cmd.type = 'S' then
    { st with paintRelay := !cmd.sprayOn }
  else st

/-- Body of the character loop of `parseSideSelection`: compute
`side = input.charAt(i) - '0'` (as a signed int) and mark the side when
`1 <= side && side <= 4`. -/
def parseStep (sides : Fin 4 → Bool) (c : Char) : Fin 4 → Bool :=
  let side : Int := (c.toNat : Int) - ('0'.toNat : Int)
  if h : 1 ≤ side ∧ side ≤ 4 then
    Function.update sides ⟨(side - 1).toNat, by omega⟩ true
  else sides

/-- `parseSideSelection(String)`: reset all sides to `false`, then walk the
characters in order. -/
def parseSideSelection (input : List Char) : Fin 4 → Bool :=
  List.foldl parseStep (fun _ => false) input

/-- The `while (currentSide < 4 && !sidesToPaint[currentSide])` skip loop
of `processPattern`, threading `(currentSide, currentCommand)`; each
iteration increments the side and resets the command index to `0`.  The
loop performs at most 4 iterations, so it is written structurally on a
fuel argument that is always instantiated with `4`. -/
def skipSides (sides : Fin 4 → Bool) : Nat → Nat → Nat → Nat × Nat
  | 0, side, cmd => (side, cmd)
  | Nat.succ f, side, cmd =>
    if h : side < 4 then
      if sides ⟨side, h⟩ then (side, cmd)
      else skipSides sides f (side + 1) 0
    else (side, cmd)

/-- `processPattern()`: advance the pattern sequencer by one step when the
motors are idle.  `motorsRunning` is the flag computed at the top of
`loop()` (before `run()`). -/
def processPattern (motorsRunning : Bool) (st0 : MachState) : MachState × List Effect :=
  if motorsRunning then (st0, [])
  else
    let sc := skipSides st0.sidesToPaint 4 st0.currentSide st0.currentCommand
    let st := { st0 with currentSide := sc.1, currentCommand := sc.2 }
    if 4 ≤ st.currentSide then
      ({ st with systemState := SystemState.CYCLE_COMPLETE }, [])
    else
      let pat := sidePattern st.currentSide
      if st.currentCommand < pat.length then
        ({ executeCommand (pat.getD st.currentCommand SPRAY_OFF) st with
            currentCommand := st.currentCommand + 1 },
         [Effect.exec st.currentSide st.currentCommand])
      else
        ({ st with currentSide := st.currentSide + 1, currentCommand := 0 }, [])

/-- The serial-input block of `loop()`: dispatch a trimmed line.  Single
characters drive the state machine; lines of length ≥ 2 set the side
selection. -/
def handleSerial (line : List Char) (st : MachState) : MachState × List Effect :=
  if line.length = 1 then
    let cmd := line.headD ' '
    if cmd = 'H' ∨ cmd = 'h' then
      if st.systemState = SystemState.IDLE then
        ({ st with systemState := SystemState.HOMING_X }, [])
      else (st, [])
    else if cmd = 'S' ∨ cmd = 's' then
      if st.systemState = SystemState.HOMED_WAITING then
        ({ st with currentSide := 0, currentCommand := 0,
                   systemState := SystemState.EXECUTING_PATTERN }, [])
      else (st, [])
    else if cmd = 'E' ∨ cmd = 'e' then
      ({ st with systemState := SystemState.ERROR,
                 paintRelay := true,
                 stepperX := st.stepperX.stopNow,
                 stepperY := st.stepperY.stopNow,
                 stepperRotation := st.stepperRotation.stopNow },
       [Effect.stopX, Effect.stopY, Effect.stopR])
    else if cmd = 'R' ∨ cmd = 'r' then
      if st.systemState = SystemState.ERROR then
        ({ st with systemState := SystemState.IDLE }, [])
      else (st, [])
    else (st, [])
  else if 2 ≤ line.length then
    ({ st with sidesToPaint := parseSideSelection line }, [])
  else (st, [])

/-- Environment inputs of one control tick: the (optional) trimmed serial
line, the two debounced sensor levels (`true = HIGH` = untriggered, the
sensors are active-low), and per-axis completion reports for the `run()`
phase. -/
structure TickInput where
  serialLine : Option (List Char)
  xSensorRead : Bool
  ySensorRead : Bool
  xReach : Bool
  yReach : Bool
  rReach : Bool

/-- The three `run()` calls of one tick: each axis either finishes its
outstanding motion this tick (environment report) or is still moving. -/
def runPhase (st : MachState) (xReach yReach rReach : Bool) : MachState :=
  { st with stepperX := st.stepperX.runTick xReach,
            stepperY := st.stepperY.runTick yReach,
            stepperRotation := st.stepperRotation.runTick rReach }

/-- The `switch(systemState)` block at the end of `loop()`.
`motorsRunning` is the flag computed before `run()`; the homing branches
consult the live (post-`run()`) `isRunning` of their axis, as the source
does.  `xRead`/`yRead` are the debounced sensor levels of this tick. -/
def stateSwitch (motorsRunning xRead yRead : Bool) (st : MachState) :
    MachState × List Effect :=
  match st.systemState with
  | SystemState.IDLE => (st, [])
  | SystemState.HOMING_X =>
      if !xRead then
        ({ st with stepperX := st.stepperX.setCurrentPosition 0,
                   systemState := SystemState.HOMING_Y }, [])
      else if !st.stepperX.isRunning then
        ({ st with stepperX := st.stepperX.moveTo (-1000000) }, [])
      else (st, [])
  | SystemState.HOMING_Y =>
      if !yRead then
        ({ st with stepperY := st.stepperY.setCurrentPosition 0,
                   systemState := SystemState.HOMED_WAITING }, [])
      else if !st.stepperY.isRunning then
        ({ st with stepperY := st.stepperY.moveTo (-1000000) }, [])
      else (st, [])
  | SystemState.HOMED_WAITING => (st, [])
  | SystemState.EXECUTING_PATTERN => processPattern motorsRunning st
  | SystemState.ERROR => (st, [])
  | SystemState.CYCLE_COMPLETE =>
      if !motorsRunning then
        ({ st with systemState := SystemState.IDLE }, [])
      else (st, [])

/-- One full iteration of `loop()`: debounce updates (folded into the
sensor inputs), `motorsRunning` computation, the three `run()` calls, at
most one serial line, then the state switch. -/
def loopTick (st : MachState) (inp : TickInput) : MachState × List Effect :=
  let motorsRunning :=
    st.stepperX.isRunning || st.stepperY.isRunning || st.stepperRotation.isRunning
  let st1 := runPhase st inp.xReach inp.yReach inp.rReach
  let r2 :=
    match inp.serialLine with
    | none => (st1, ([] : List Effect))
    | some line => handleSerial line st1
  let r3 := stateSwitch motorsRunning inp.xSensorRead inp.ySensorRead r2.1
  (r3.1, r2.2 ++ r3.2)

/-- Global-variable initialisers together with the effects of `setup()`:
state `IDLE`, cursor `(0,0)`, all four sides selected
(`bool sidesToPaint[4] = {true, true, true, true}`), relay driven `HIGH`
(spray off), steppers at position 0 with no outstanding motion. -/
def initState : MachState :=
  { systemState := SystemState.IDLE,
    currentSide := 0,
    currentCommand := 0,
    sidesToPaint := fun _ => true,
    paintRelay := true,
    stepperX := ⟨0, 0⟩,
    stepperY := ⟨0, 0⟩,
    stepperRotation := ⟨0, 0⟩ }

/-- Run a sequence of ticks, collecting all effects in order. -/
def runTicks (st : MachState) : List TickInput → MachState × List Effect
  | [] => (st, [])
  | inp :: rest =>
    let r := loopTick st inp
    let r2 := runTicks r.1 rest
    (r2.1, r.2 ++ r2.2)

/-- Run a sequence of ticks, recording the post-tick state and the effects
of every tick. -/
def runTraceE (st : MachState) : List TickInput → List (MachState × List Effect)
  | [] => []
  | inp :: rest =>
    let r := loopTick st inp
    (r.1, r.2) :: runTraceE r.1 rest

/-- The side indices of the pattern-table executions in an effect list. -/
def execSides (effs : List Effect) : List Nat :=
  effs.filterMap (fun e => match e with | Effect.exec s _ => some s | _ => none)

/-- Concatenated effects of a trace. -/
def traceEffects (tr : List (MachState × List Effect)) : List Effect :=
  tr.foldr (fun p acc => p.2 ++ acc) []

/-- A tick with no serial input, untriggered sensors, and every axis
completing its outstanding motion during `run()`. -/
def idleInput : TickInput :=
  { serialLine := none, xSensorRead := true, ySensorRead := true,
    xReach := true, yReach := true, rReach := true }

/-! ### Concrete scenario states and inputs -/

/-- The system parked in `HOMED_WAITING` with sides 2 and 4 selected via
the operator input `"24"`, axes idle. -/
def c3Start : MachState :=
  { initState with systemState := SystemState.HOMED_WAITING,
                   sidesToPaint := parseSideSelection ['2', '4'] }

/-- A tick consuming the serial line `"S"` (start). -/
def startInput : TickInput := { idleInput with serialLine := some ['S'] }

/-- Input schedule for the selection-`"24"` cycle: `"S"`, then idle ticks
until well past cycle completion. -/
def c3Inputs : List TickInput := startInput :: List.replicate 95 idleInput

/-- The (side, commandIndex) pairs of the pattern-table executions in an
effect list, in order. -/
def execPairs (effs : List Effect) : List (Nat × Nat) :=
  effs.filterMap (fun e => match e with | Effect.exec s c => some (s, c) | _ => none)

/-- A tick consuming the serial line `"H"` (home). -/
def homeInput : TickInput := { idleInput with serialLine := some ['H'] }

/-- A homing tick on which the X sensor reads triggered (active-low). -/
def xTrigInput : TickInput := { idleInput with xSensorRead := false }

/-- A homing tick on which both sensors read triggered (active-low). -/
def bothTrigInput : TickInput :=
  { idleInput with xSensorRead := false, ySensorRead := false }

/-- Input schedule for the full default cycle: `"H"`, one tick until the X
sensor trips, one until the Y sensor trips, `"S"`, then idle ticks until
well past cycle completion. -/
def c10Inputs : List TickInput :=
  homeInput :: xTrigInput :: bothTrigInput :: startInput :: List.replicate 190 idleInput

/-- Mid-pattern sequencer state: executing, all four sides selected,
cursor at side 0, command 32 (the last command of `SIDE1_PATTERN`), axes
idle. -/
def c4Ex : MachState :=
  { initState with systemState := SystemState.EXECUTING_PATTERN,
                   currentSide := 0, currentCommand := 32 }

/-- A tick consuming the serial line `"0"`. -/
def zeroInput : TickInput := { idleInput with serialLine := some ['0'] }

/-- A tick consuming the serial line `"E"` (emergency). -/
def emergencyInput : TickInput := { idleInput with serialLine := some ['E'] }

/-- The §4.3 `advance()` procedure of the specification, amended at step 4:
(1) while the current side is unselected and the side index is below 4,
increment the side index and reset the command index, executing nothing;
(2) if the side index is 4, signal cycle completion; (3′, amended) if the
command index has already reached the side's pattern length (a rollover is
pending from the previous advance), reset it to 0 and increment the side
index, executing nothing; (4′) otherwise execute exactly the one command
at the cursor and increment the command index.  Written from the spec's
words, to be compared with `processPattern` on an idle tick. -/
def patternAdvanceSpec (st0 : MachState) : MachState × List Effect :=
  let sc := skipSides st0.sidesToPaint 4 st0.currentSide st0.currentCommand
  let st := { st0 with currentSide := sc.1, currentCommand := sc.2 }
  if 4 ≤ st.currentSide then
    ({ st with systemState := SystemState.CYCLE_COMPLETE }, [])
  else if (sidePattern st.currentSide).length ≤ st.currentCommand then
    ({ st with currentSide := st.currentSide + 1, currentCommand := 0 }, [])
  else
    ({ executeCommand ((sidePattern st.currentSide).getD st.currentCommand SPRAY_OFF) st with
        currentCommand := st.currentCommand + 1 },
     [Effect.exec st.currentSide st.currentCommand])

/-- The ASCII digit character selecting side `i` (sides are 1-based in the
operator protocol): `'1'`, `'2'`, `'3'` or `'4'`. -/
def sideDigit (i : Fin 4) : Char := Char.ofNat ('1'.toNat + i.val)

/-! ### Helper lemmas -/

theorem executeCommand_sidesToPaint (c : Command) (st : MachState) :
    (executeCommand c st).sidesToPaint = st.sidesToPaint := by
  unfold executeCommand; split_ifs <;> rfl

theorem executeCommand_systemState (c : Command) (st : MachState) :
    (executeCommand c st).systemState = st.systemState := by
  unfold executeCommand; split_ifs <;> rfl

theorem executeCommand_currentSide (c : Command) (st : MachState) :
    (executeCommand c st).currentSide = st.currentSide := by
  unfold executeCommand; split_ifs <;> rfl

theorem executeCommand_currentCommand (c : Command) (st : MachState) :
    (executeCommand c st).currentCommand = st.currentCommand := by
  unfold executeCommand; split_ifs <;> rfl

theorem processPattern_sidesToPaint (mr : Bool) (st : MachState) :
    (processPattern mr st).1.sidesToPaint = st.sidesToPaint := by
  simp only [processPattern]
  split
  · rfl
  · split
    · rfl
    · split
      · simp [executeCommand_sidesToPaint]
      · rfl

theorem stateSwitch_sidesToPaint (mr xr yr : Bool) (st : MachState) :
    (stateSwitch mr xr yr st).1.sidesToPaint = st.sidesToPaint := by
  unfold stateSwitch
  cases h : st.systemState <;> simp [h, processPattern_sidesToPaint] <;>
    split_ifs <;> rfl

theorem handleSerial_short_sidesToPaint (l : List Char) (st : MachState)
    (h : l.length < 2) :
    (handleSerial l st).1.sidesToPaint = st.sidesToPaint := by
  unfold handleSerial; dsimp only; split_ifs <;> first | rfl | omega

/-! ### Claim theorems -/

/-- C4 (counterexample): in `ExecutingPattern` with all sides selected,
cursor `(0, 32)` and all axes idle, one advance executes the last command
of `SIDE1_PATTERN` and leaves the cursor at `(0, 33)`: the claimed
same-advance rollover to `(1, 0)` does not happen. -/
theorem c4_rollover_deferred_cex :
    (processPattern false c4Ex).2 = [Effect.exec 0 32] ∧
    (processPattern false c4Ex).1.currentSide = 0 ∧
    (processPattern false c4Ex).1.currentCommand = SIDE1_SIZE ∧
    ¬ ((processPattern false c4Ex).1.currentSide = 1 ∧
       (processPattern false c4Ex).1.currentCommand = 0) := by decide

/-- C4 (amended): each idle-tick advance of the pattern sequencer first
skips unselected sides (resetting the command index), signals cycle
completion when the side index reaches 4, rolls the cursor over to the
next side — executing nothing — when the command index has already
reached the side's pattern length, and otherwise executes exactly the one
command at the cursor and increments the command index; the rollover
happens on the advance after a side's last command, not within the same
advance. -/
theorem c4_advance_amended (st : MachState) :
    processPattern false st = patternAdvanceSpec st := by
  simp only [processPattern, patternAdvanceSpec]
  split_ifs <;> first | rfl | omega | contradiction

/-- C8 (counterexample): with all four sides selected (the startup
default), processing the operator input `"0"` does not clear the
selection — `"0"` has length 1, is not a recognized single-character
command, and `parseSideSelection` only runs for inputs of length ≥ 2. -/
theorem c8_zero_input_cex :
    ¬ (∀ i : Fin 4, (loopTick initState zeroInput).1.sidesToPaint i = false) := by
  decide

/-- C8 (amended): the operator input `"0"` is silently ignored, like any
unrecognized single-character command: the tick behaves exactly as a tick
with no serial input, so the side selection (and everything else) is
unchanged; clearing all selections requires an input of length ≥ 2 with
no valid digits. -/
theorem c8_zero_input_ignored (st : MachState) (inp : TickInput)
    (h : inp.serialLine = some ['0']) :
    loopTick st inp = loopTick st { inp with serialLine := none } := by
  simp only [loopTick, h]
  simp [handleSerial]

/-- C8 witness: the amended theorem applied at the startup state and the
concrete `"0"` tick. -/
theorem c8_zero_input_ignored_witness :
    loopTick initState zeroInput = loopTick initState { zeroInput with serialLine := none } :=
  c8_zero_input_ignored initState zeroInput rfl

set_option maxRecDepth 10000 in
/-- C3: starting in `HomedWaiting` with sides {2,4} selected via `"24"`,
the `"S"` command runs a cycle in which the pattern-table executions are
exactly the `SIDE2_SIZE + SIDE4_SIZE` commands `(1,0) … (1,32), (3,0) …
(3,23)` in order (so the side-1 and side-3 tables are never indexed and
sides are visited in increasing order), every execution precedes the
single tick in `CycleComplete`, and the machine then reaches `Idle` with
the axes idle. -/
theorem c3_selection24_cycle :
    execPairs (runTicks c3Start c3Inputs).2 =
      (List.range SIDE2_SIZE).map (fun i => (1, i)) ++
      (List.range SIDE4_SIZE).map (fun i => (3, i)) ∧
    (runTraceE c3Start c3Inputs).countP
      (fun p => decide (p.1.systemState = SystemState.CYCLE_COMPLETE)) = 1 ∧
    (execSides (traceEffects ((runTraceE c3Start c3Inputs).takeWhile
      (fun p => !decide (p.1.systemState = SystemState.CYCLE_COMPLETE))))).length
      = SIDE2_SIZE + SIDE4_SIZE ∧
    (runTicks c3Start c3Inputs).1.systemState = SystemState.IDLE := by decide

set_option maxRecDepth 10000 in
/-- C10: after initialization the system is `Idle` with the spray relay
driven `HIGH` (deasserted) and all four sides selected by default, and the
sequence home → sensor trips → `"S"` with no prior selection input
executes all four side patterns in full (`(0,0) … (3,23)`, i.e.
`SIDE1_SIZE + SIDE2_SIZE + SIDE3_SIZE + SIDE4_SIZE` commands) and returns
to `Idle`. -/
theorem c10_startup_defaults_full_cycle :
    initState.systemState = SystemState.IDLE ∧
    initState.paintRelay = true ∧
    (∀ i : Fin 4, initState.sidesToPaint i = true) ∧
    execPairs (runTicks initState c10Inputs).2 =
      (List.range SIDE1_SIZE).map (fun i => (0, i)) ++
      (List.range SIDE2_SIZE).map (fun i => (1, i)) ++
      (List.range SIDE3_SIZE).map (fun i => (2, i)) ++
      (List.range SIDE4_SIZE).map (fun i => (3, i)) ∧
    (runTicks initState c10Inputs).1.systemState = SystemState.IDLE := by decide

theorem runPhase_systemState (st : MachState) (a b c : Bool) :
    (runPhase st a b c).systemState = st.systemState := rfl

theorem runPhase_stepperX (st : MachState) (a b c : Bool) :
    (runPhase st a b c).stepperX = st.stepperX.runTick a := rfl

theorem runPhase_stepperY (st : MachState) (a b c : Bool) :
    (runPhase st a b c).stepperY = st.stepperY.runTick b := rfl

theorem handleSerial_selection (l : List Char) (st : MachState) (h : 2 ≤ l.length) :
    handleSerial l st = ({ st with sidesToPaint := parseSideSelection l }, []) := by
  unfold handleSerial
  rw [if_neg (by omega), if_pos h]

theorem sideDigit_toNat (i : Fin 4) : (sideDigit i).toNat = 49 + i.val := by
  fin_cases i <;> decide

theorem eq_sideDigit_iff_toNat (c : Char) (i : Fin 4) :
    c = sideDigit i ↔ c.toNat = 49 + i.val := by
  constructor
  · intro h; subst h; exact sideDigit_toNat i
  · intro h
    have h2 : Char.ofNat c.toNat = c := Char.ofNat_toNat c
    rw [h] at h2
    exact h2.symm

theorem parseStep_apply (f : Fin 4 → Bool) (c : Char) (i : Fin 4) :
    parseStep f c i = (f i || decide (c = sideDigit i)) := by
  have hlt := i.isLt
  unfold parseStep
  simp only [show ('0'.toNat : Int) = 48 from rfl]
  split
  next h =>
    simp only [Function.update_apply, Fin.ext_iff]
    by_cases hv : (i : Nat) = ((c.toNat : Int) - 48 - 1).toNat
    · have hc : c = sideDigit i := by
        rw [eq_sideDigit_iff_toNat]
        omega
      simp [hv, hc]
    · have hc : ¬ (c = sideDigit i) := by
        intro hcc
        rw [eq_sideDigit_iff_toNat] at hcc
        exact hv (by omega)
      simp [hc]
      intro hv2
      exact absurd (by omega : (i : Nat) = ((c.toNat : Int) - 48 - 1).toNat) hv
  next h =>
    have hc : ¬ (c = sideDigit i) := by
      intro hcc
      rw [eq_sideDigit_iff_toNat] at hcc
      exact h (by constructor <;> omega)
    simp [hc]

theorem parseSideSelection_foldl (l : List Char) (f : Fin 4 → Bool) (i : Fin 4) :
    List.foldl parseStep f l i = (f i || l.any (fun c => decide (c = sideDigit i))) := by
  induction l generalizing f with
  | nil => simp
  | cons c l ih =>
    rw [List.foldl_cons, ih, parseStep_apply, List.any_cons, Bool.or_assoc]

theorem parseSideSelection_mem (l : List Char) (i : Fin 4) :
    (parseSideSelection l i = true ↔ sideDigit i ∈ l) := by
  unfold parseSideSelection
  rw [parseSideSelection_foldl]
  simp only [Bool.false_or, List.any_eq_true, decide_eq_true_eq]
  constructor
  · rintro ⟨x, hx, rfl⟩
    exact hx
  · intro hm
    exact ⟨_, hm, rfl⟩

/-- C1: consuming the emergency line (`"E"` or `"e"`) in any state leaves
the tick in `Error`, with the spray relay driven `HIGH` (deasserted) and a
decelerating stop issued to all three axes, all within that same tick. -/
theorem c1_emergency_any_state (st : MachState) (inp : TickInput)
    (h : inp.serialLine = some ['E'] ∨ inp.serialLine = some ['e']) :
    (loopTick st inp).1.systemState = SystemState.ERROR ∧
    (loopTick st inp).1.paintRelay = true ∧
    Effect.stopX ∈ (loopTick st inp).2 ∧
    Effect.stopY ∈ (loopTick st inp).2 ∧
    Effect.stopR ∈ (loopTick st inp).2 := by
  rcases h with h | h <;> simp [loopTick, h, handleSerial, stateSwitch]

/-- C1 witness: the emergency line consumed from the startup state. -/
theorem c1_emergency_any_state_witness :
    (loopTick initState emergencyInput).1.systemState = SystemState.ERROR ∧
    (loopTick initState emergencyInput).1.paintRelay = true ∧
    Effect.stopX ∈ (loopTick initState emergencyInput).2 ∧
    Effect.stopY ∈ (loopTick initState emergencyInput).2 ∧
    Effect.stopR ∈ (loopTick initState emergencyInput).2 :=
  c1_emergency_any_state initState emergencyInput (Or.inl rfl)

/-- C2: a `"home"` line outside `Idle`, a `"start"` line outside
`HomedWaiting`, or a `"reset"` line outside `Error` (upper or lower case)
is silently ignored: the tick is identical — same resulting state and same
effects — to the tick with no serial input at all, so no transition occurs
and the axes, actuator, cursor and selection are untouched by the command. -/
theorem c2_guarded_commands_ignored (st : MachState) (inp : TickInput) (c : Char)
    (hs : inp.serialLine = some [c])
    (h : ((c = 'H' ∨ c = 'h') ∧ st.systemState ≠ SystemState.IDLE) ∨
         ((c = 'S' ∨ c = 's') ∧ st.systemState ≠ SystemState.HOMED_WAITING) ∨
         ((c = 'R' ∨ c = 'r') ∧ st.systemState ≠ SystemState.ERROR)) :
    loopTick st inp = loopTick st { inp with serialLine := none } := by
  have hstate : ∀ a b cc : Bool, (runPhase st a b cc).systemState = st.systemState :=
    fun _ _ _ => rfl
  simp only [loopTick, hs]
  rcases h with ⟨hc, hne⟩ | ⟨hc, hne⟩ | ⟨hc, hne⟩ <;> rcases hc with rfl | rfl <;>
    simp [handleSerial, hstate, hne]

/-- C2 witness: `"H"` consumed in `HomedWaiting` (≠ `Idle`) is a no-op. -/
theorem c2_guarded_commands_ignored_witness :
    loopTick c3Start homeInput = loopTick c3Start { homeInput with serialLine := none } :=
  c2_guarded_commands_ignored c3Start homeInput 'H' rfl (Or.inl ⟨Or.inl rfl, by decide⟩)

/-- C5: while homing an axis (no serial input): the tick its debounced
sensor reads triggered (LOW), the axis position is defined as zero and the
state advances (`HomingX → HomingY` on X, `HomingY → HomedWaiting` on Y);
while the sensor reads untriggered and the axis is not currently moving,
the axis is commanded to the fixed far target `-1000000` — a constant
independent of the current position, so no distance target is ever derived
from position. -/
theorem c5_homing_sensor_driven (st : MachState) (inp : TickInput)
    (hser : inp.serialLine = none) :
    (st.systemState = SystemState.HOMING_X →
      ((inp.xSensorRead = false →
         (loopTick st inp).1.stepperX.pos = 0 ∧
         (loopTick st inp).1.stepperX.target = 0 ∧
         (loopTick st inp).1.systemState = SystemState.HOMING_Y) ∧
       (inp.xSensorRead = true →
         (st.stepperX.runTick inp.xReach).isRunning = false →
         (loopTick st inp).1.stepperX.target = -1000000 ∧
         (loopTick st inp).1.systemState = SystemState.HOMING_X))) ∧
    (st.systemState = SystemState.HOMING_Y →
      ((inp.ySensorRead = false →
         (loopTick st inp).1.stepperY.pos = 0 ∧
         (loopTick st inp).1.stepperY.target = 0 ∧
         (loopTick st inp).1.systemState = SystemState.HOMED_WAITING) ∧
       (inp.ySensorRead = true →
         (st.stepperY.runTick inp.yReach).isRunning = false →
         (loopTick st inp).1.stepperY.target = -1000000 ∧
         (loopTick st inp).1.systemState = SystemState.HOMING_Y))) := by
  constructor
  · intro hX
    constructor
    · intro hsens
      simp [loopTick, hser, stateSwitch, runPhase_systemState, runPhase_stepperX, hX, hsens,
        Stepper.setCurrentPosition]
    · intro hsens hrun
      simp [loopTick, hser, stateSwitch, runPhase_systemState, runPhase_stepperX, hX, hsens,
        hrun, Stepper.moveTo]
  · intro hY
    constructor
    · intro hsens
      simp [loopTick, hser, stateSwitch, runPhase_systemState, runPhase_stepperY, hY, hsens,
        Stepper.setCurrentPosition]
    · intro hsens hrun
      simp [loopTick, hser, stateSwitch, runPhase_systemState, runPhase_stepperY, hY, hsens,
        hrun, Stepper.moveTo]

/-- C5 witness: in `HomingX` with the X sensor triggered, the X position is
zeroed and the state advances to `HomingY`. -/
theorem c5_homing_sensor_driven_witness :
    (loopTick { initState with systemState := SystemState.HOMING_X } bothTrigInput).1.stepperX.pos = 0 ∧
    (loopTick { initState with systemState := SystemState.HOMING_X } bothTrigInput).1.stepperX.target = 0 ∧
    (loopTick { initState with systemState := SystemState.HOMING_X } bothTrigInput).1.systemState
      = SystemState.HOMING_Y :=
  ((c5_homing_sensor_driven { initState with systemState := SystemState.HOMING_X }
      bothTrigInput rfl).1 rfl).1 rfl

/-- C6: a move command with `sprayOn` asserts the relay (drives it `LOW`)
in the very call that issues the move; once asserted, no command other
than an explicit spray-off (`type 'S'`, `sprayOn = false`) deasserts it —
in particular a subsequent move without spray leaves it asserted — and
motion completion (the `run()` phase) never touches the relay. -/
theorem c6_spray_latched_until_off (st : MachState) (c : Command) (v : Rat)
    (xr yr rr : Bool) :
    ((executeCommand (MOVE_X v true) st).paintRelay = false ∧
     (executeCommand (MOVE_X v true) st).stepperX.target
        = st.stepperX.pos + truncScale v X_STEPS_PER_INCH) ∧
    ((executeCommand (MOVE_Y v true) st).paintRelay = false ∧
     (executeCommand (MOVE_Y v true) st).stepperY.target
        = st.stepperY.pos + truncScale v Y_STEPS_PER_INCH) ∧
    (st.paintRelay = false → ¬ (c.type = 'S' ∧ c.sprayOn = false) →
      (executeCommand c st).paintRelay = false) ∧
    (runPhase st xr yr rr).paintRelay = st.paintRelay := by
  refine ⟨⟨?_, ?_⟩, ⟨?_, ?_⟩, ?_, rfl⟩
  · simp [executeCommand, MOVE_X]
  · simp [executeCommand, MOVE_X, Stepper.move]
  · simp [executeCommand, MOVE_Y]
  · simp [executeCommand, MOVE_Y, Stepper.move]
  · intro h1 h2
    unfold executeCommand
    split_ifs <;> simp_all

/-- C6 witness: with the relay asserted, a spray-less move leaves it
asserted. -/
theorem c6_spray_latched_until_off_witness :
    (executeCommand (MOVE_Y 2 false) { initState with paintRelay := false }).paintRelay = false :=
  (c6_spray_latched_until_off { initState with paintRelay := false } (MOVE_Y 2 false)
      1 true true true).2.2.1 rfl (by decide)

/-- C7: consuming any serial line of length ≥ 2 sets the side selection so
that side `i` is selected iff the line contains the digit character for
side `i` — so characters outside `'1'`–`'4'` are ignored, duplicate digits
are idempotent (`"13"` and `"1133"` give the same selection), and a line
with no valid digit clears all four sides. -/
theorem c7_selection_parse (st : MachState) (inp : TickInput) (line : List Char)
    (hs : inp.serialLine = some line) (hlen : 2 ≤ line.length) (i : Fin 4) :
    ((loopTick st inp).1.sidesToPaint i = true ↔ sideDigit i ∈ line) := by
  simp only [loopTick, hs]
  rw [stateSwitch_sidesToPaint, handleSerial_selection _ _ hlen]
  exact parseSideSelection_mem line i

/-- C7 witness: the input `"13"` selects side 1. -/
theorem c7_selection_parse_witness :
    ((loopTick initState { idleInput with serialLine := some ['1','3'] }).1.sidesToPaint
        (0 : Fin 4) = true
      ↔ sideDigit (0 : Fin 4) ∈ ['1','3']) :=
  c7_selection_parse initState { idleInput with serialLine := some ['1','3'] }
    ['1','3'] rfl (by decide) (0 : Fin 4)

/-- C9: the emergency tick leaves the sequencer cursor
(`currentSide`, `currentCommand`) and the side selection unchanged; and
the side selection is changed by nothing but a serial line of length ≥ 2 —
any tick whose serial input (if any) is shorter leaves it as is, so it is
never reset automatically between cycles. -/
theorem c9_emergency_frame (st : MachState) (inp : TickInput) :
    ((inp.serialLine = some ['E'] ∨ inp.serialLine = some ['e']) →
      (loopTick st inp).1.currentSide = st.currentSide ∧
      (loopTick st inp).1.currentCommand = st.currentCommand ∧
      (loopTick st inp).1.sidesToPaint = st.sidesToPaint) ∧
    ((∀ l, inp.serialLine = some l → l.length < 2) →
      (loopTick st inp).1.sidesToPaint = st.sidesToPaint) := by
  constructor
  · intro h
    rcases h with h | h <;> simp [loopTick, h, handleSerial, stateSwitch] <;>
      exact ⟨rfl, rfl, rfl⟩
  · intro hl
    cases hser : inp.serialLine with
    | none =>
      simp only [loopTick, hser]
      rw [stateSwitch_sidesToPaint]
      rfl
    | some l =>
      simp only [loopTick, hser]
      rw [stateSwitch_sidesToPaint, handleSerial_short_sidesToPaint _ _ (hl l hser)]
      rfl

/-- C9 witness: the emergency tick from the startup state preserves the
cursor and the selection. -/
theorem c9_emergency_frame_witness :
    ((loopTick initState emergencyInput).1.currentSide = initState.currentSide ∧
     (loopTick initState emergencyInput).1.currentCommand = initState.currentCommand ∧
     (loopTick initState emergencyInput).1.sidesToPaint = initState.sidesToPaint) ∧
    (loopTick initState emergencyInput).1.sidesToPaint = initState.sidesToPaint :=
  ⟨(c9_emergency_frame initState emergencyInput).1 (Or.inl rfl),
   (c9_emergency_frame initState emergencyInput).2
     (fun l h => by injection h with h2; rw [← h2]; decide)⟩
